import Mathlib

/-!
Verification development for the `ai-3d-fdm-eval` evaluation orchestration
engine.  The TypeScript sources (`src/tools.ts`, `src/utils.ts`,
`src/runner.ts`, `src/mesh-runner.ts`, the two task modules and the static
task registry) are shallowly embedded below: filesystem state is passed
explicitly, a thrown JavaScript exception is modelled as `Except.error`,
and each embedded function mirrors the control flow of its source
function line by line.
-/

namespace AiFdmEval

/-! ## Paths

A path value as produced by Node's `path` module on a POSIX system:
`abs` records whether the path string starts with a separator
(`isAbsolute`), `segs` the separator-split segments, which may contain
`".."`.  `path.join(w, p)` concatenates and normalises, resolving `".."`
against the preceding segment (at the root of an absolute path a
surplus `".."` is dropped, as Node does). -/

structure JPath where
  abs : Bool
  segs : List String
deriving DecidableEq, Repr

/-- One step of Node path normalisation: `"."` and empty segments vanish,
`".."` removes the previously accepted segment. -/
def normStep (acc : List String) (seg : String) : List String :=
  if seg = "." ∨ seg = "" then acc
  else if seg = ".." then acc.dropLast
  else acc ++ [seg]

def normSegs (segs : List String) : List String :=
  segs.foldl normStep []

/-- `path.join(workdir, p)` for an absolute `workdir`. -/
def joinPath (w p : JPath) : JPath :=
  ⟨w.abs, normSegs (w.segs ++ p.segs)⟩

/-- The directory containing a path (`path.dirname`). -/
def parentDir (p : JPath) : JPath :=
  ⟨p.abs, p.segs.dropLast⟩

/-! ## Filesystem semantics

Files and directories, enough for `fs.readFile`, `fs.writeFile`.
`fs.writeFile` does not create missing parent directories: it fails with
`ENOENT` when the parent does not exist, and overwrites an existing
file. -/

structure FS where
  files : List (JPath × String)
  dirs : List JPath
deriving DecidableEq, Repr

def findFile (files : List (JPath × String)) (p : JPath) : Option String :=
  (files.find? (fun e => e.1 = p)).map (fun e => e.2)

def setFile (files : List (JPath × String)) (p : JPath) (c : String) :
    List (JPath × String) :=
  (p, c) :: files.filter (fun e => ¬ e.1 = p)

def readFileSem (fs : FS) (p : JPath) : Except String String :=
  match findFile fs.files p with
  | some c => .ok c
  | none => .error (if fs.dirs.contains p then "EISDIR" else "ENOENT")

def writeFileSem (fs : FS) (p : JPath) (c : String) : Except String FS :=
  if fs.dirs.contains (parentDir p) then
    if fs.dirs.contains p then .error "EISDIR"
    else .ok ⟨setFile fs.files p c, fs.dirs⟩
  else .error "ENOENT"

/-! ## Sandboxed filesystem tools (`src/tools.ts`)

`createReadFileTool(workdir).execute` and
`createWriteFileTool(workdir).execute`.  The only path check either tool
performs is `isAbsolute(params.path)`; a relative path is joined onto the
working directory and used as is.  Exceptions from `fs` are caught and
returned as `error` strings. -/

structure ReadResult where
  content : String
  error : Option String
deriving DecidableEq, Repr

structure WriteResult where
  success : Bool
  bytesWritten : Option Nat
  error : Option String
deriving DecidableEq, Repr

def absolutePathMsg : String :=
  "Absolute paths are not allowed. Please use relative paths only."

def createReadFileTool (workdir : JPath) (fs : FS) (path : JPath) :
    ReadResult :=
  if path.abs then ⟨"", some absolutePathMsg⟩
  else
    match readFileSem fs (joinPath workdir path) with
    | .ok content => ⟨content, none⟩
    | .error e => ⟨"", some ("Failed to read file: " ++ e)⟩

def createWriteFileTool (workdir : JPath) (fs : FS) (path : JPath)
    (content : String) : WriteResult × FS :=
  if path.abs then (⟨false, none, some absolutePathMsg⟩, fs)
  else
    match writeFileSem fs (joinPath workdir path) content with
    | .ok fs' => (⟨true, some content.utf8ByteSize, none⟩, fs')
    | .error e => (⟨false, none, some ("Failed to write file: " ++ e)⟩, fs)

/-! ## Run directory naming (`src/utils.ts`, `generateRunDirectoryName`)

The source reads the wall clock once (`new Date()`), renders each
component in decimal with `String(n)` (the month/day/time components
padded to two characters with `padStart(2, "0")`), replaces every `/` in
the model name with `-` (`replace(/\//g, "-")`), and concatenates.  The
clock reading is the `Timestamp` argument here. -/

structure Timestamp where
  year : Nat
  month : Nat
  day : Nat
  hour : Nat
  minute : Nat
  second : Nat
deriving DecidableEq, Repr

/-- The decimal digit character for `d < 10` (JS number-to-string digits). -/
def decDigit (d : Nat) : Char := Char.ofNat (48 + d)

/-- Decimal digit accumulator, `fuel` bounding the number of divisions
(structural recursion, in the style of `Nat.toDigitsCore`). -/
def natDigitsGo : Nat → Nat → List Char → List Char
  | 0, _, acc => acc
  | fuel + 1, n, acc =>
    if n < 10 then decDigit n :: acc
    else natDigitsGo fuel (n / 10) (decDigit (n % 10) :: acc)

/-- Decimal digit list of a natural number, most significant first:
the semantics of JavaScript `String(n)` for a non-negative integer. -/
def natDigits (n : Nat) : List Char := natDigitsGo (n + 1) n []

def natToString (n : Nat) : String := String.mk (natDigits n)

/-- `s.padStart(len, c)`. -/
def padStart (s : String) (len : Nat) (c : Char) : String :=
  String.mk (List.replicate (len - s.length) c) ++ s

/-- `String(n).padStart(2, "0")`. -/
def pad2 (n : Nat) : String := padStart (natToString n) 2 '0'

/-- `modelName.replace(/\//g, "-")`. -/
def sanitizeModelName (m : String) : String :=
  String.mk (m.data.map (fun c => if c = '/' then '-' else c))

def generateRunDirectoryName (modelName : String) (now : Timestamp) : String :=
  "run-" ++ natToString now.year ++ pad2 now.month ++ pad2 now.day ++
    "-" ++ pad2 now.hour ++ pad2 now.minute ++ pad2 now.second ++
    "-" ++ sanitizeModelName modelName

/-! ## Task results and validation metadata (`src/types.ts`)

`TaskResult.metadata` is a free-form JavaScript object
(`Record<string, unknown>`); the value shapes actually constructed by the
shipped validators are captured by `MetaValue`.  A field whose value may
be `undefined` (captured stdout/stderr of a render) is an `optStr`. -/

inductive MetaValue where
  | str : String → MetaValue
  | boolean : Bool → MetaValue
  | optStr : Option String → MetaValue
  | obj : List (String × MetaValue) → MetaValue

structure TaskResult where
  taskName : String
  success : Bool
  error : Option String
  outputPath : String
  metadata : Option (List (String × MetaValue))

/-! ## External renderer outcome (`src/utils.ts`, `renderOpenSCAD`)

What one invocation of the external renderer reports back: the
success flag, the error message built from the exit code (or the caught
exception's message), and the captured stdout/stderr (absent when the
spawn itself threw). -/

structure RenderOutcome where
  success : Bool
  error : Option String
  stdout : Option String
  stderr : Option String

/-- JavaScript template interpolation of a possibly-undefined string. -/
def jsShow (o : Option String) : String := o.getD "undefined"

/-! ## Validation pipeline (`evals/tasks` rivet validators)

The environment records what the filesystem and the renderer would
answer at each probe of one `validate(outputDir)` run: whether the
source artifact exists, the outcome of the default-view render, whether
its output file then exists, and the same for the bottom-isometric
view.  Each validator returns the `TaskResult` it constructs together
with the list of views for which the external renderer was actually
invoked, in invocation order. -/

structure ValidationEnv where
  scadExists : Bool
  render1 : RenderOutcome
  png1Exists : Bool
  render2 : RenderOutcome
  png2Exists : Bool

inductive ViewCall where
  | defaultView
  | bottomView
deriving DecidableEq, Repr

/-- `rivetTask.validate(outputDir)` from `evals/tasks/001-rivet-zero-shot.ts`. -/
def rivetValidate (outputDir : String) (env : ValidationEnv) :
    TaskResult × List ViewCall :=
  let scadFile := outputDir ++ "/rivet.scad"
  let pngFile := outputDir ++ "/rivet.png"
  let pngBottomFile := outputDir ++ "/rivet-bottom.png"
  if env.scadExists = false then
    (⟨"rivet", false, some "rivet.scad file was not created", outputDir, none⟩,
     [])
  else
    let renderResult := env.render1
    if renderResult.success = false then
      (⟨"rivet", false,
        some ("Failed to render OpenSCAD file (default view): " ++
          jsShow renderResult.error),
        outputDir,
        some [("stdout", .optStr renderResult.stdout),
              ("stderr", .optStr renderResult.stderr)]⟩,
       [.defaultView])
    else if env.png1Exists = false then
      (⟨"rivet", false,
        some "PNG file was not generated despite successful render (default view)",
        outputDir,
        some [("stdout", .optStr renderResult.stdout),
              ("stderr", .optStr renderResult.stderr)]⟩,
       [.defaultView])
    else
      let renderBottomResult := env.render2
      if renderBottomResult.success = false then
        (⟨"rivet", false,
          some ("Failed to render OpenSCAD file (bottom isometric view): " ++
            jsShow renderBottomResult.error),
          outputDir,
          some [("defaultView", .obj [("success", .boolean true),
                                      ("file", .str pngFile)]),
                ("bottomView", .obj [("success", .boolean false),
                                     ("stdout", .optStr renderBottomResult.stdout),
                                     ("stderr", .optStr renderBottomResult.stderr)])]⟩,
         [.defaultView, .bottomView])
      else if env.png2Exists = false then
        (⟨"rivet", false,
          some "PNG file was not generated despite successful render (bottom isometric view)",
          outputDir,
          some [("defaultView", .obj [("success", .boolean true),
                                      ("file", .str pngFile)]),
                ("bottomView", .obj [("success", .boolean false),
                                     ("stdout", .optStr renderBottomResult.stdout),
                                     ("stderr", .optStr renderBottomResult.stderr)])]⟩,
         [.defaultView, .bottomView])
      else
        (⟨"rivet", true, none, outputDir,
          some [("scadFile", .str scadFile),
                ("pngFile", .str pngFile),
                ("pngBottomFile", .str pngBottomFile),
                ("defaultView", .obj [("success", .boolean true),
                                      ("stdout", .optStr renderResult.stdout),
                                      ("stderr", .optStr renderResult.stderr)]),
                ("bottomView", .obj [("success", .boolean true),
                                     ("stdout", .optStr renderBottomResult.stdout),
                                     ("stderr", .optStr renderBottomResult.stderr)])]⟩,
         [.defaultView, .bottomView])

/-- `trapezoidalRivetTask.validate(outputDir)` from
`evals/tasks/002-trapezoidal-rivet-zero-shot.ts`; identical control flow
with the trapezoidal-rivet file names and messages. -/
def trapezoidalValidate (outputDir : String) (env : ValidationEnv) :
    TaskResult × List ViewCall :=
  let scadFile := outputDir ++ "/trapezoidal-rivet.scad"
  let pngFile := outputDir ++ "/trapezoidal-rivet.png"
  let pngBottomFile := outputDir ++ "/trapezoidal-rivet-bottom.png"
  if env.scadExists = false then
    (⟨"trapezoidal-rivet", false,
      some "trapezoidal-rivet.scad file was not created", outputDir, none⟩,
     [])
  else
    let renderResult := env.render1
    if renderResult.success = false then
      (⟨"trapezoidal-rivet", false,
        some ("Failed to render OpenSCAD file (default view): " ++
          jsShow renderResult.error),
        outputDir,
        some [("stdout", .optStr renderResult.stdout),
              ("stderr", .optStr renderResult.stderr)]⟩,
       [.defaultView])
    else if env.png1Exists = false then
      (⟨"trapezoidal-rivet", false,
        some "PNG file was not generated despite successful render (default view)",
        outputDir,
        some [("stdout", .optStr renderResult.stdout),
              ("stderr", .optStr renderResult.stderr)]⟩,
       [.defaultView])
    else
      let renderBottomResult := env.render2
      if renderBottomResult.success = false then
        (⟨"trapezoidal-rivet", false,
          some ("Failed to render OpenSCAD file (bottom isometric view): " ++
            jsShow renderBottomResult.error),
          outputDir,
          some [("defaultView", .obj [("success", .boolean true),
                                      ("file", .str pngFile)]),
                ("bottomView", .obj [("success", .boolean false),
                                     ("stdout", .optStr renderBottomResult.stdout),
                                     ("stderr", .optStr renderBottomResult.stderr)])]⟩,
         [.defaultView, .bottomView])
      else if env.png2Exists = false then
        (⟨"trapezoidal-rivet", false,
          some "PNG file was not generated despite successful render (bottom isometric view)",
          outputDir,
          some [("defaultView", .obj [("success", .boolean true),
                                      ("file", .str pngFile)]),
                ("bottomView", .obj [("success", .boolean false),
                                     ("stdout", .optStr renderBottomResult.stdout),
                                     ("stderr", .optStr renderBottomResult.stderr)])]⟩,
         [.defaultView, .bottomView])
      else
        (⟨"trapezoidal-rivet", true, none, outputDir,
          some [("scadFile", .str scadFile),
                ("pngFile", .str pngFile),
                ("pngBottomFile", .str pngBottomFile),
                ("defaultView", .obj [("success", .boolean true),
                                      ("stdout", .optStr renderResult.stdout),
                                      ("stderr", .optStr renderResult.stderr)]),
                ("bottomView", .obj [("success", .boolean true),
                                     ("stdout", .optStr renderBottomResult.stdout),
                                     ("stderr", .optStr renderBottomResult.stderr)])]⟩,
         [.defaultView, .bottomView])

/-! ## Single-evaluation executor (`src/runner.ts`)

`runTask` wraps directory creation, tool instantiation, the model call
and validation in one `try`: any exception thrown before `validate`
returns is converted into a failed `TaskResult` carrying the exception's
message and no metadata.  `TaskRunOutcome` records whether that `try`
body reached `validate` or threw. -/

inductive TaskRunOutcome where
  | completed
  | threw (message : String)

def runTask (outcome : TaskRunOutcome) (validated : TaskResult)
    (taskName outputDir : String) : TaskResult :=
  match outcome with
  | .completed => validated
  | .threw message => ⟨taskName, false, some message, outputDir, none⟩

/-! ## Task registries

Two registries exist in the repository.  `src/runner.ts` builds one
dynamically (`loadTasks`: a `Map` keyed by each discovered task's own
`name`, with `getTask` throwing on a missing name); the static registry
module builds one as an object literal with a total, non-throwing
`getTask`. -/

structure TaskDesc where
  name : String
  description : String
  ttype : String
deriving DecidableEq, Repr

def rivetTaskDesc : TaskDesc :=
  ⟨"rivet", "Generate a round head rivet with specific dimensions using OpenSCAD",
   "one-shot"⟩

/-- `Map.set` on an association list: overwrite the first binding of
the key in place, appending a new binding when the key is absent. -/
def mapSet : List (String × TaskDesc) → String → TaskDesc →
    List (String × TaskDesc)
  | [], k, v => [(k, v)]
  | e :: rest, k, v =>
      if e.1 = k then (k, v) :: rest else e :: mapSet rest k v

def mapGet (m : List (String × TaskDesc)) (k : String) : Option TaskDesc :=
  (m.find? (fun e => e.1 = k)).map (fun e => e.2)

/-- `loadTasks` (`src/runner.ts`): index each discovered task export by
its own `name` field (`tasks.set(taskExport.name, taskExport)`). -/
def loadTasks (found : List TaskDesc) : List (String × TaskDesc) :=
  found.foldl (fun m t => mapSet m t.name t) []

/-- `getTask` (`src/runner.ts`): throws when the name is missing. -/
def runnerGetTask (reg : List (String × TaskDesc)) (name : String) :
    Except String TaskDesc :=
  match mapGet reg name with
  | some task => .ok task
  | none =>
      .error ("Task \"" ++ name ++ "\" not found. Available tasks: " ++
        String.intercalate ", " (reg.map (fun e => e.1)))

/-- `hasTask` (`src/runner.ts`). -/
def runnerHasTask (reg : List (String × TaskDesc)) (name : String) : Bool :=
  (mapGet reg name).isSome

/-- The static registry object literal (`tasks = { rivet: rivetTask }`). -/
def staticTasks : List (String × TaskDesc) := [("rivet", rivetTaskDesc)]

/-- Static `getTask(name)`: plain indexing, `undefined` when absent. -/
def staticGetTask (name : String) : Option TaskDesc :=
  mapGet staticTasks name

/-- Static `hasTask(name)`: `name in tasks`. -/
def staticHasTask (name : String) : Bool :=
  staticTasks.any (fun e => e.1 = name)

/-! ## `runEvaluation` (`src/runner.ts`)

The environment holds everything one `runEvaluation(model, taskName)`
call observes from the outside world: whether the API key is set, the
task names the dynamic loader finds, the clock reading used for the run
directory name, and per task name what the executor's `try` body did and
what `validate` returned.  A thrown JavaScript error is an
`Except.error`; per-task failures are caught inside `runTask` and never
escape, so a completed `runEvaluation` returns `.ok` with its result
list even when every task in it failed. -/

structure EvalEnv where
  apiKeyPresent : Bool
  availableTasks : List String
  clock : Timestamp
  taskOutcome : String → TaskRunOutcome
  validated : String → TaskResult

def tasksToRun (taskName : Option String) (env : EvalEnv) : List String :=
  match taskName with
  | some n => [n]
  | none => env.availableTasks

def runEvaluation (modelName : String) (taskName : Option String)
    (env : EvalEnv) : Except String (List TaskResult) :=
  if env.apiKeyPresent = false then
    .error "OPENROUTER_API_KEY environment variable is not set"
  else
    let names := tasksToRun taskName env
    match names.find? (fun n => ¬ env.availableTasks.contains n) with
    | some n =>
        .error ("Unknown task: " ++ n ++ ". Available tasks: " ++
          String.intercalate ", " env.availableTasks)
    | none =>
        let runDir := "evals/results/" ++
          generateRunDirectoryName modelName env.clock
        .ok (names.map (fun n =>
          runTask (env.taskOutcome n) (env.validated n) n (runDir ++ "/" ++ n)))

/-! ## Mesh orchestrator (`src/mesh-runner.ts`) -/

structure MeshResult where
  model : String
  task : String
  success : Bool
  error : Option String
deriving DecidableEq, Repr

def taskLabel (taskName : Option String) : String :=
  taskName.getD "all tasks"

/-- `runModelEval`: run one model's evaluation, catching anything
`runEvaluation` throws into a failed `MeshResult`. -/
def runModelEval (model : String) (taskName : Option String)
    (env : EvalEnv) : List MeshResult :=
  match runEvaluation model taskName env with
  | .ok _ => [⟨model, taskLabel taskName, true, none⟩]
  | .error msg => [⟨model, taskLabel taskName, false, some msg⟩]

/-- `runMeshEvaluation`'s result accumulation loop.  Each model's call
to `runEvaluation` re-reads the environment (task directory, API key),
so the environment is supplied per model. -/
def runMeshEvaluation (models : List String) (taskName : Option String)
    (envs : String → EvalEnv) : List MeshResult :=
  models.flatMap (fun m => runModelEval m taskName (envs m))

structure Summary where
  total : Nat
  successful : Nat
  failed : Nat
  failedEntries : List MeshResult
deriving DecidableEq, Repr

/-- The counts and failed list computed by `printSummary`. -/
def summarize (allResults : List MeshResult) : Summary :=
  ⟨allResults.length,
   (allResults.filter (fun r => r.success)).length,
   (allResults.filter (fun r => r.success = false)).length,
   allResults.filter (fun r => r.success = false)⟩

/-- The exit-code policy at the end of `runMeshEvaluation`:
`process.exit(1)` when any `MeshResult` failed, otherwise the process
terminates normally with code 0. -/
def meshExitCode (allResults : List MeshResult) : Nat :=
  if allResults.any (fun r => r.success = false) then 1 else 0

/-! ## Helper lemmas -/

lemma mem_natDigitsGo (fuel n : Nat) (acc : List Char) (c : Char)
    (hc : c ∈ natDigitsGo fuel n acc) :
    c ∈ acc ∨ ∃ d, d < 10 ∧ c = decDigit d := by
  induction fuel generalizing n acc with
  | zero => exact Or.inl hc
  | succ fuel ih =>
    rw [natDigitsGo] at hc
    split at hc
    · rcases List.mem_cons.mp hc with h | h
      · exact Or.inr ⟨n, by omega, h⟩
      · exact Or.inl h
    · rcases ih _ _ hc with h | h
      · rcases List.mem_cons.mp h with h' | h'
        · exact Or.inr ⟨n % 10, Nat.mod_lt _ (by omega), h'⟩
        · exact Or.inl h'
      · exact Or.inr h

lemma slash_ne_decDigit (d : Nat) (hd : d < 10) : ('/' : Char) ≠ decDigit d := by
  interval_cases d <;> decide

lemma slash_not_mem_natToString (n : Nat) : '/' ∉ (natToString n).data := by
  intro h
  rcases mem_natDigitsGo _ _ _ _ h with h' | ⟨d, hd, h'⟩
  · exact absurd h' (List.not_mem_nil _)
  · exact slash_ne_decDigit d hd h'

lemma slash_not_mem_pad2 (n : Nat) : '/' ∉ (pad2 n).data := by
  intro h
  rw [pad2, padStart, String.data_append] at h
  rcases List.mem_append.mp h with h' | h'
  · exact absurd (List.eq_of_mem_replicate h') (by decide)
  · exact slash_not_mem_natToString n h'

lemma slash_not_mem_sanitize (m : String) :
    '/' ∉ (sanitizeModelName m).data := by
  intro h
  rw [sanitizeModelName] at h
  rcases List.mem_map.mp h with ⟨c, _, hc⟩
  by_cases hcs : c = '/' <;> simp [hcs] at hc

lemma slash_not_mem_append {a b : String} (ha : '/' ∉ a.data)
    (hb : '/' ∉ b.data) : '/' ∉ (a ++ b).data := by
  intro h
  rcases List.mem_append.mp (String.data_append a b ▸ h) with h' | h'
  · exact ha h'
  · exact hb h'

/-! ## Claims -/

lemma findFile_setFile (files : List (JPath × String)) (p : JPath)
    (c : String) : findFile (setFile files p c) p = some c := by
  simp [findFile, setFile]

/-- The `TaskResult` invariant of the spec: the `error` field is present
exactly when `success` is false. -/
def errorIffFailure (r : TaskResult) : Prop :=
  r.error.isSome = true ↔ r.success = false

/-- C5: `generateRunDirectoryName` is deterministic given the model
identifier and the clock reading (identical inputs give identical
output), produces `run-<YYYYMMDD>-<HHMMSS>-<sanitizedModel>` where the
sanitised model name replaces every path separator `/` with a dash, and
its result contains no path separator. -/
theorem runDirectoryName_deterministic_separator_free :
    ∀ (m : String) (t : Timestamp) (m' : String) (t' : Timestamp),
      (generateRunDirectoryName m t =
        "run-" ++ natToString t.year ++ pad2 t.month ++ pad2 t.day ++ "-" ++
          pad2 t.hour ++ pad2 t.minute ++ pad2 t.second ++ "-" ++
          sanitizeModelName m) ∧
      '/' ∉ (generateRunDirectoryName m t).data ∧
      (m = m' → t = t' →
        generateRunDirectoryName m t = generateRunDirectoryName m' t') := by
  intro m t m' t'
  refine ⟨rfl, ?_, fun h1 h2 => h1 ▸ h2 ▸ rfl⟩
  rw [generateRunDirectoryName]
  exact slash_not_mem_append (slash_not_mem_append (slash_not_mem_append
    (slash_not_mem_append (slash_not_mem_append (slash_not_mem_append
      (slash_not_mem_append (slash_not_mem_append (slash_not_mem_append
        (by decide) (slash_not_mem_natToString _)) (slash_not_mem_pad2 _))
        (slash_not_mem_pad2 _)) (by decide)) (slash_not_mem_pad2 _))
        (slash_not_mem_pad2 _)) (slash_not_mem_pad2 _)) (by decide))
    (slash_not_mem_sanitize _)

/-- C5 witness: on the model identifier `"a/b-model"` and a fixed clock
reading the directory name is separator-free, two identical calls agree,
and the name evaluates to `run-20260113-083000-a-b-model`. -/
theorem runDirectoryName_deterministic_separator_free_witness :
    '/' ∉ (generateRunDirectoryName "a/b-model" ⟨2026, 1, 13, 8, 30, 0⟩).data ∧
    generateRunDirectoryName "a/b-model" ⟨2026, 1, 13, 8, 30, 0⟩ =
      generateRunDirectoryName "a/b-model" ⟨2026, 1, 13, 8, 30, 0⟩ ∧
    generateRunDirectoryName "a/b-model" ⟨2026, 1, 13, 8, 30, 0⟩ =
      "run-20260113-083000-a-b-model" :=
  ⟨(runDirectoryName_deterministic_separator_free "a/b-model"
      ⟨2026, 1, 13, 8, 30, 0⟩ "a/b-model" ⟨2026, 1, 13, 8, 30, 0⟩).2.1,
   (runDirectoryName_deterministic_separator_free "a/b-model"
      ⟨2026, 1, 13, 8, 30, 0⟩ "a/b-model" ⟨2026, 1, 13, 8, 30, 0⟩).2.2 rfl rfl,
   rfl⟩

/-- C3: the tools bound to workdir `/home/user/out` reject only absolute
paths.  The relative path `../../secret` contains `..` segments, joins
and normalises to `/home/secret`, which is not a descendant of the
workdir, and both the read tool and the write tool proceed there
without any path-escape error: the read returns the outside file's
content with `error = none`, and the write succeeds and creates the
outside file. -/
theorem tools_perform_no_descendant_check :
    (JPath.mk false ["..", "..", "secret"]).abs = false ∧
    ".." ∈ (JPath.mk false ["..", "..", "secret"]).segs ∧
    (joinPath ⟨true, ["home", "user", "out"]⟩
      ⟨false, ["..", "..", "secret"]⟩).segs = ["home", "secret"] ∧
    (joinPath ⟨true, ["home", "user", "out"]⟩
      ⟨false, ["..", "..", "secret"]⟩).segs.take 3 ≠ ["home", "user", "out"] ∧
    createReadFileTool ⟨true, ["home", "user", "out"]⟩
      ⟨[(⟨true, ["home", "secret"]⟩, "top secret")],
       [⟨true, ["home"]⟩, ⟨true, ["home", "user"]⟩,
        ⟨true, ["home", "user", "out"]⟩]⟩
      ⟨false, ["..", "..", "secret"]⟩ = ⟨"top secret", none⟩ ∧
    createWriteFileTool ⟨true, ["home", "user", "out"]⟩
      ⟨[], [⟨true, ["home"]⟩, ⟨true, ["home", "user"]⟩,
            ⟨true, ["home", "user", "out"]⟩]⟩
      ⟨false, ["..", "..", "secret"]⟩ "owned" =
      (⟨true, some 5, none⟩,
       ⟨[(⟨true, ["home", "secret"]⟩, "owned")],
        [⟨true, ["home"]⟩, ⟨true, ["home", "user"]⟩,
         ⟨true, ["home", "user", "out"]⟩]⟩) :=
  ⟨rfl, by decide, rfl, by decide, rfl, rfl⟩

/-- C9: a write through the sandboxed tool with an absolute path is
rejected with the path-rejection error and leaves the filesystem
untouched (no file is created); and whenever a write through the tool
with a relative path succeeds, a subsequent read of the same relative
path through the read tool returns exactly the written content with no
error (round-trip law). -/
theorem writeTool_rejects_absolute_and_roundtrips :
    ∀ (w : JPath) (fs : FS) (p : JPath) (c : String),
      (p.abs = true →
        createWriteFileTool w fs p c = (⟨false, none, some absolutePathMsg⟩, fs)) ∧
      (p.abs = false →
        (createWriteFileTool w fs p c).1.success = true →
        createReadFileTool w (createWriteFileTool w fs p c).2 p = ⟨c, none⟩) := by
  intro w fs p c
  constructor
  · intro h
    simp [createWriteFileTool, h]
  · intro h hs
    have hw : writeFileSem fs (joinPath w p) c =
        .ok ⟨setFile fs.files (joinPath w p) c, fs.dirs⟩ ∨
        ∃ e, writeFileSem fs (joinPath w p) c = .error e := by
      rw [writeFileSem]
      split
      · split
        · exact Or.inr ⟨_, rfl⟩
        · exact Or.inl rfl
      · exact Or.inr ⟨_, rfl⟩
    rcases hw with hw | ⟨e, hw⟩
    · simp [createReadFileTool, createWriteFileTool, h, hw, readFileSem,
        findFile_setFile]
    · simp [createWriteFileTool, h, hw] at hs

/-- C9 witness: the concrete absolute path `/etc/passwd` is rejected and
creates nothing, and writing `"hello"` to `f.txt` under workdir `/w`
then reading `f.txt` returns `"hello"`. -/
theorem writeTool_rejects_absolute_and_roundtrips_witness :
    createWriteFileTool ⟨true, ["w"]⟩ ⟨[], [⟨true, ["w"]⟩]⟩
        ⟨true, ["etc", "passwd"]⟩ "x" =
      (⟨false, none, some absolutePathMsg⟩, ⟨[], [⟨true, ["w"]⟩]⟩) ∧
    createReadFileTool ⟨true, ["w"]⟩
        (createWriteFileTool ⟨true, ["w"]⟩ ⟨[], [⟨true, ["w"]⟩]⟩
          ⟨false, ["f.txt"]⟩ "hello").2
        ⟨false, ["f.txt"]⟩ = ⟨"hello", none⟩ :=
  ⟨(writeTool_rejects_absolute_and_roundtrips _ _ _ _).1 rfl,
   (writeTool_rejects_absolute_and_roundtrips
      ⟨true, ["w"]⟩ ⟨[], [⟨true, ["w"]⟩]⟩ ⟨false, ["f.txt"]⟩ "hello").2 rfl rfl⟩

/-- C2 (divergence evidence): the write tool's `execute` calls
`fs.writeFile` without creating parent directories, although its own
tool description says "Creates parent directories as needed".  With
workdir `/w` existing and relative path `sub/rivet.scad` whose parent
`/w/sub` does not exist, the write fails with a wrapped I/O error and
creates neither the parent directory nor the file. -/
theorem writeTool_does_not_create_parent_directories :
    createWriteFileTool ⟨true, ["w"]⟩ ⟨[], [⟨true, ["w"]⟩]⟩
        ⟨false, ["sub", "rivet.scad"]⟩ "cube(1);" =
      (⟨false, none, some "Failed to write file: ENOENT"⟩,
       ⟨[], [⟨true, ["w"]⟩]⟩) := rfl

/-- C7: when the declared source artifact is absent, both shipped
validators terminate immediately: the renderer is never invoked (empty
invocation trace), and the `TaskResult` carries only the
missing-artifact error and the output path, with `metadata` absent. -/
theorem validate_missing_artifact_skips_render :
    ∀ (outputDir : String) (env : ValidationEnv),
      env.scadExists = false →
      rivetValidate outputDir env =
        (⟨"rivet", false, some "rivet.scad file was not created",
          outputDir, none⟩, []) ∧
      trapezoidalValidate outputDir env =
        (⟨"trapezoidal-rivet", false,
          some "trapezoidal-rivet.scad file was not created",
          outputDir, none⟩, []) := by
  intro dir env h
  exact ⟨by simp [rivetValidate, h], by simp [trapezoidalValidate, h]⟩

/-- C7 witness: a concrete environment whose artifact is absent. -/
theorem validate_missing_artifact_skips_render_witness :
    rivetValidate "out" ⟨false, ⟨false, none, none, none⟩, false,
        ⟨false, none, none, none⟩, false⟩ =
      (⟨"rivet", false, some "rivet.scad file was not created",
        "out", none⟩, []) ∧
    trapezoidalValidate "out" ⟨false, ⟨false, none, none, none⟩, false,
        ⟨false, none, none, none⟩, false⟩ =
      (⟨"trapezoidal-rivet", false,
        some "trapezoidal-rivet.scad file was not created",
        "out", none⟩, []) :=
  validate_missing_artifact_skips_render "out"
    ⟨false, ⟨false, none, none, none⟩, false, ⟨false, none, none, none⟩, false⟩
    rfl

/-- C10: every `TaskResult` produced by either shipped validator, and
every `TaskResult` produced by the single-evaluation executor's
exception boundary around them, has its `error` field present exactly
when `success` is false. -/
theorem taskResult_error_iff_failure :
    ∀ (outputDir : String) (env : ValidationEnv) (outcome : TaskRunOutcome),
      errorIffFailure (rivetValidate outputDir env).1 ∧
      errorIffFailure (trapezoidalValidate outputDir env).1 ∧
      errorIffFailure
        (runTask outcome (rivetValidate outputDir env).1 "rivet" outputDir) ∧
      errorIffFailure
        (runTask outcome (trapezoidalValidate outputDir env).1
          "trapezoidal-rivet" outputDir) := by
  intro dir env outcome
  obtain ⟨scad, ⟨r1s, r1e, r1o, r1r⟩, p1, ⟨r2s, r2e, r2o, r2r⟩, p2⟩ := env
  cases outcome <;> cases scad <;> cases r1s <;> cases p1 <;> cases r2s <;>
    cases p2 <;>
    simp [rivetValidate, trapezoidalValidate, runTask, errorIffFailure]

/-- C6 counterexample: when the first (default) view's render fails, the
validator stores that view's stdout and stderr as top-level metadata
keys `"stdout"`/`"stderr"` — there is no `"defaultView"` per-stage key
at all, contradicting the claim that the failing view's stdout/stderr
appear under its per-stage key. -/
theorem validate_first_view_failure_metadata_flat :
    (rivetValidate "out" ⟨true, ⟨false, some "exit 1", some "out1", some "err1"⟩,
        false, ⟨true, none, none, none⟩, false⟩).1.success = false ∧
    (rivetValidate "out" ⟨true, ⟨false, some "exit 1", some "out1", some "err1"⟩,
        false, ⟨true, none, none, none⟩, false⟩).1.metadata =
      some [("stdout", .optStr (some "out1")),
            ("stderr", .optStr (some "err1"))] ∧
    ((rivetValidate "out" ⟨true, ⟨false, some "exit 1", some "out1", some "err1"⟩,
        false, ⟨true, none, none, none⟩, false⟩).1.metadata.getD
      []).lookup "defaultView" = none :=
  ⟨rfl, rfl, rfl⟩

/-- C6 (amended): when the renderer for view i fails, validation
terminates with `success = false` and an error naming view i, no later
view is rendered (the invocation trace stops at view i) and the
metadata has no entry for any later view.  When the first view fails
its stdout/stderr are stored as top-level `"stdout"`/`"stderr"` keys;
when the second view fails the metadata holds a `"defaultView"` entry
with its success flag and output file path (without stdout/stderr) and
a `"bottomView"` entry with `success = false` and the failing view's
stdout/stderr. -/
theorem validate_render_failure_fail_fast :
    ∀ (outputDir : String) (env : ValidationEnv),
      (env.scadExists = true → env.render1.success = false →
        rivetValidate outputDir env =
          (⟨"rivet", false,
            some ("Failed to render OpenSCAD file (default view): " ++
              jsShow env.render1.error),
            outputDir,
            some [("stdout", .optStr env.render1.stdout),
                  ("stderr", .optStr env.render1.stderr)]⟩,
           [.defaultView])) ∧
      (env.scadExists = true → env.render1.success = true →
        env.png1Exists = true → env.render2.success = false →
        rivetValidate outputDir env =
          (⟨"rivet", false,
            some ("Failed to render OpenSCAD file (bottom isometric view): " ++
              jsShow env.render2.error),
            outputDir,
            some [("defaultView", .obj [("success", .boolean true),
                    ("file", .str (outputDir ++ "/rivet.png"))]),
                  ("bottomView", .obj [("success", .boolean false),
                    ("stdout", .optStr env.render2.stdout),
                    ("stderr", .optStr env.render2.stderr)])]⟩,
           [.defaultView, .bottomView])) := by
  intro dir env
  constructor
  · intro h1 h2
    simp [rivetValidate, h1, h2]
  · intro h1 h2 h3 h4
    simp [rivetValidate, h1, h2, h3, h4]

/-- C6 witness: both failure points evaluated on concrete
environments. -/
theorem validate_render_failure_fail_fast_witness :
    rivetValidate "o" ⟨true, ⟨false, some "code 1", some "so", some "se"⟩,
        false, ⟨true, none, none, none⟩, false⟩ =
      (⟨"rivet", false,
        some ("Failed to render OpenSCAD file (default view): " ++
          jsShow (some "code 1")),
        "o",
        some [("stdout", .optStr (some "so")),
              ("stderr", .optStr (some "se"))]⟩,
       [.defaultView]) ∧
    rivetValidate "o" ⟨true, ⟨true, none, some "a", some "b"⟩, true,
        ⟨false, some "code 2", some "c", some "d"⟩, false⟩ =
      (⟨"rivet", false,
        some ("Failed to render OpenSCAD file (bottom isometric view): " ++
          jsShow (some "code 2")),
        "o",
        some [("defaultView", .obj [("success", .boolean true),
                ("file", .str ("o" ++ "/rivet.png"))]),
              ("bottomView", .obj [("success", .boolean false),
                ("stdout", .optStr (some "c")),
                ("stderr", .optStr (some "d"))])]⟩,
       [.defaultView, .bottomView]) :=
  ⟨(validate_render_failure_fail_fast "o"
      ⟨true, ⟨false, some "code 1", some "so", some "se"⟩, false,
        ⟨true, none, none, none⟩, false⟩).1 rfl rfl,
   (validate_render_failure_fail_fast "o"
      ⟨true, ⟨true, none, some "a", some "b"⟩, true,
        ⟨false, some "code 2", some "c", some "d"⟩, false⟩).2 rfl rfl rfl rfl⟩

lemma outputMissing_ne_renderFailed_default (e : String) :
    ("PNG file was not generated despite successful render (default view)" :
      String) ≠ "Failed to render OpenSCAD file (default view): " ++ e := by
  intro h
  have hd := congrArg (fun s => s.data.head?) h
  simp only [String.data_append, List.cons_append, List.head?_cons] at hd
  exact absurd hd (by decide)

lemma outputMissing_ne_renderFailed_bottom (e : String) :
    ("PNG file was not generated despite successful render (bottom isometric view)" :
      String) ≠
      "Failed to render OpenSCAD file (bottom isometric view): " ++ e := by
  intro h
  have hd := congrArg (fun s => s.data.head?) h
  simp only [String.data_append, List.cons_append, List.head?_cons] at hd
  exact absurd hd (by decide)

/-- C8: for each view, when the renderer reports success but the
declared output file does not exist, validation fails with the
output-missing error message for that view, and that message is
distinct from every render-failed message the same view can produce
(the two failure kinds are distinguishable). -/
theorem validate_output_missing_distinct_error :
    ∀ (outputDir : String) (env : ValidationEnv),
      (env.scadExists = true → env.render1.success = true →
        env.png1Exists = false →
        (rivetValidate outputDir env).1.success = false ∧
        (rivetValidate outputDir env).1.error =
          some "PNG file was not generated despite successful render (default view)" ∧
        ∀ e : String,
          ("PNG file was not generated despite successful render (default view)" :
            String) ≠ "Failed to render OpenSCAD file (default view): " ++ e) ∧
      (env.scadExists = true → env.render1.success = true →
        env.png1Exists = true → env.render2.success = true →
        env.png2Exists = false →
        (rivetValidate outputDir env).1.success = false ∧
        (rivetValidate outputDir env).1.error =
          some "PNG file was not generated despite successful render (bottom isometric view)" ∧
        ∀ e : String,
          ("PNG file was not generated despite successful render (bottom isometric view)" :
            String) ≠
            "Failed to render OpenSCAD file (bottom isometric view): " ++ e) := by
  intro dir env
  constructor
  · intro h1 h2 h3
    refine ⟨?_, ?_, outputMissing_ne_renderFailed_default⟩ <;>
      simp [rivetValidate, h1, h2, h3]
  · intro h1 h2 h3 h4 h5
    refine ⟨?_, ?_, outputMissing_ne_renderFailed_bottom⟩ <;>
      simp [rivetValidate, h1, h2, h3, h4, h5]

/-- C8 witness: both output-missing points evaluated on concrete
environments, with the kind distinction instantiated at the concrete
renderer error `"OpenSCAD process exited with code 1"`. -/
theorem validate_output_missing_distinct_error_witness :
    (rivetValidate "o" ⟨true, ⟨true, none, some "a", some "b"⟩, false,
        ⟨true, none, none, none⟩, false⟩).1.error =
      some "PNG file was not generated despite successful render (default view)" ∧
    ("PNG file was not generated despite successful render (default view)" :
      String) ≠
      "Failed to render OpenSCAD file (default view): " ++
        "OpenSCAD process exited with code 1" ∧
    (rivetValidate "o" ⟨true, ⟨true, none, some "a", some "b"⟩, true,
        ⟨true, none, some "c", some "d"⟩, false⟩).1.error =
      some "PNG file was not generated despite successful render (bottom isometric view)" ∧
    ("PNG file was not generated despite successful render (bottom isometric view)" :
      String) ≠
      "Failed to render OpenSCAD file (bottom isometric view): " ++
        "OpenSCAD process exited with code 1" :=
  ⟨((validate_output_missing_distinct_error "o"
      ⟨true, ⟨true, none, some "a", some "b"⟩, false,
        ⟨true, none, none, none⟩, false⟩).1 rfl rfl rfl).2.1,
   ((validate_output_missing_distinct_error "o"
      ⟨true, ⟨true, none, some "a", some "b"⟩, false,
        ⟨true, none, none, none⟩, false⟩).1 rfl rfl rfl).2.2
      "OpenSCAD process exited with code 1",
   ((validate_output_missing_distinct_error "o"
      ⟨true, ⟨true, none, some "a", some "b"⟩, true,
        ⟨true, none, some "c", some "d"⟩, false⟩).2 rfl rfl rfl rfl rfl).2.1,
   ((validate_output_missing_distinct_error "o"
      ⟨true, ⟨true, none, some "a", some "b"⟩, true,
        ⟨true, none, some "c", some "d"⟩, false⟩).2 rfl rfl rfl rfl rfl).2.2
      "OpenSCAD process exited with code 1"⟩

lemma mapGet_cons (e : String × TaskDesc) (rest : List (String × TaskDesc))
    (k : String) :
    mapGet (e :: rest) k = if e.1 = k then some e.2 else mapGet rest k := by
  by_cases h : e.1 = k <;> simp [mapGet, List.find?_cons, h]

lemma mapGet_mapSet (m : List (String × TaskDesc)) (key : String)
    (v : TaskDesc) (k : String) :
    mapGet (mapSet m key v) k = if k = key then some v else mapGet m k := by
  induction m with
  | nil =>
    by_cases h : k = key
    · subst h; simp [mapSet, mapGet_cons]
    · have h2 : ¬ key = k := fun hh => h hh.symm
      simp [mapSet, mapGet_cons, h, h2, mapGet]
  | cons e rest ih =>
    by_cases he : e.1 = key
    · by_cases hk : k = key
      · subst hk; simp [mapSet, he, mapGet_cons]
      · have h2 : ¬ key = k := fun hh => hk hh.symm
        have h3 : ¬ e.1 = k := fun hh => hk ((he ▸ hh : key = k).symm ▸ rfl)
        simp [mapSet, he, mapGet_cons, hk, h2, h3]
    · by_cases hek : e.1 = k
      · have hk : ¬ k = key := fun hh => he (hh ▸ hek)
        simp [mapSet, he, mapGet_cons, hek, hk]
      · simp [mapSet, he, mapGet_cons, hek, ih]

lemma loadTasks_key_is_name (found : List TaskDesc) :
    ∀ k d, mapGet (loadTasks found) k = some d → d.name = k := by
  suffices h : ∀ (m : List (String × TaskDesc)),
      (∀ k d, mapGet m k = some d → d.name = k) →
      ∀ k d, mapGet (found.foldl (fun m t => mapSet m t.name t) m) k = some d →
        d.name = k by
    exact h [] (fun k d hd => by simp [mapGet] at hd)
  induction found with
  | nil => exact fun m hm => hm
  | cons t rest ih =>
    intro m hm k d h
    refine ih (mapSet m t.name t) ?_ k d h
    intro k' d' h'
    rw [mapGet_mapSet] at h'
    split at h'
    · next hk => cases h'; exact hk ▸ rfl
    · exact hm k' d' h'

/-- C4 counterexample: on the dynamic registry built from the rivet
task, `getTask` for a missing name does not signal absence without
throwing — it throws (modelled as `Except.error`) an error listing the
available tasks, even though `hasTask` is false there. -/
theorem runnerGetTask_throws_on_missing :
    runnerGetTask (loadTasks [rivetTaskDesc]) "nope" =
      .error "Task \"nope\" not found. Available tasks: rivet" ∧
    runnerHasTask (loadTasks [rivetTaskDesc]) "nope" = false :=
  ⟨rfl, rfl⟩

/-- C4 (amended): for every name bound in the dynamic registry,
`hasTask` is true and `getTask` returns a descriptor whose `name`
equals the lookup key; for every absent name, `hasTask` is false and
`getTask` throws an error (it does not return).  The static registry's
`getTask` does signal absence without throwing: it returns a descriptor
whose `name` equals the key when present and `undefined` (`none`)
when absent, with `hasTask` matching. -/
theorem registry_get_has_contract :
    ∀ (found : List TaskDesc) (n : String),
      (∀ d, mapGet (loadTasks found) n = some d →
        d.name = n ∧ runnerHasTask (loadTasks found) n = true ∧
        runnerGetTask (loadTasks found) n = .ok d) ∧
      (mapGet (loadTasks found) n = none →
        runnerHasTask (loadTasks found) n = false ∧
        ∃ msg, runnerGetTask (loadTasks found) n = .error msg) ∧
      (∀ d, staticGetTask n = some d → staticHasTask n = true ∧ d.name = n) ∧
      (staticGetTask n = none → staticHasTask n = false) := by
  intro found n
  refine ⟨fun d hd => ⟨loadTasks_key_is_name found n d hd, ?_, ?_⟩,
    fun hn => ⟨?_, ?_⟩, fun d hd => ?_, fun hn => ?_⟩
  · simp [runnerHasTask, hd]
  · simp [runnerGetTask, hd]
  · simp [runnerHasTask, hn]
  · exact ⟨"Task \"" ++ n ++ "\" not found. Available tasks: " ++
      String.intercalate ", " ((loadTasks found).map (fun e => e.1)),
      by simp [runnerGetTask, hn]⟩
  · by_cases h : "rivet" = n
    · subst h
      simp [staticGetTask, staticTasks, mapGet_cons, staticHasTask] at hd ⊢
      exact hd ▸ rfl
    · simp [staticGetTask, staticTasks, mapGet_cons, h, mapGet] at hd
  · by_cases h : "rivet" = n
    · subst h
      simp [staticGetTask, staticTasks, mapGet_cons] at hn
    · simp [staticHasTask, staticTasks, h]

/-- C4 witness: the registries evaluated at the present name `"rivet"`
and the absent names `"zzz"`/`"nope"`. -/
theorem registry_get_has_contract_witness :
    (rivetTaskDesc.name = "rivet" ∧
     runnerHasTask (loadTasks [rivetTaskDesc]) "rivet" = true ∧
     runnerGetTask (loadTasks [rivetTaskDesc]) "rivet" = .ok rivetTaskDesc) ∧
    (runnerHasTask (loadTasks [rivetTaskDesc]) "zzz" = false ∧
     ∃ msg, runnerGetTask (loadTasks [rivetTaskDesc]) "zzz" = .error msg) ∧
    (staticHasTask "rivet" = true ∧ rivetTaskDesc.name = "rivet") ∧
    staticHasTask "nope" = false :=
  ⟨(registry_get_has_contract [rivetTaskDesc] "rivet").1 rivetTaskDesc rfl,
   (registry_get_has_contract [rivetTaskDesc] "zzz").2.1 rfl,
   (registry_get_has_contract [rivetTaskDesc] "rivet").2.2.1 rivetTaskDesc rfl,
   (registry_get_has_contract [rivetTaskDesc] "nope").2.2.2 rfl⟩

/-- C1 counterexample: in the mesh scenario with models `["m1", "m2"]`
and task filter `"t1"` where m1's evaluation succeeds and m2's model
call throws, the executor's `try` boundary inside `runTask` absorbs
m2's exception into a failed `TaskResult`, so `runEvaluation` for m2
still completes normally and the mesh records m2 as successful: the
summary reports successful = 2, failed = 0, an empty failed list, and
the process exit code is 0 — not successful = 1, failed = 1, exit
code 1 as claimed. -/
theorem mesh_model_throw_counted_successful :
    let envs : String → EvalEnv := fun m =>
      if m = "m2" then
        ⟨true, ["t1"], ⟨2026, 1, 13, 8, 0, 0⟩,
          fun _ => .threw "model call failed",
          fun n => ⟨n, true, none, "", none⟩⟩
      else
        ⟨true, ["t1"], ⟨2026, 1, 13, 8, 0, 0⟩, fun _ => .completed,
          fun n => ⟨n, true, none, "", none⟩⟩
    (summarize (runMeshEvaluation ["m1", "m2"] (some "t1") envs)).total = 2 ∧
    (summarize (runMeshEvaluation ["m1", "m2"] (some "t1") envs)).successful = 2 ∧
    (summarize (runMeshEvaluation ["m1", "m2"] (some "t1") envs)).failed = 0 ∧
    (summarize (runMeshEvaluation ["m1", "m2"] (some "t1") envs)).failedEntries = [] ∧
    meshExitCode (runMeshEvaluation ["m1", "m2"] (some "t1") envs) = 0 := by
  exact ⟨rfl, rfl, rfl, rfl, rfl⟩

/-- C1 (amended): in the mesh scenario with models `["m1", "m2"]` and
task filter `"t1"`, where m1's `runEvaluation` completes and m2's
`runEvaluation` itself throws (a model-call exception is absorbed
inside the executor and never reaches the mesh), the summary reports
total = 2, successful = 1, failed = 1, the failed list contains exactly
m2, and the process exit code is 1; in general the mesh exit code is 0
exactly when every recorded mesh evaluation succeeded. -/
theorem mesh_summary_and_exit_code :
    ∀ (envs : String → EvalEnv) (msg : String) (rs1 : List TaskResult),
      runEvaluation "m1" (some "t1") (envs "m1") = .ok rs1 →
      runEvaluation "m2" (some "t1") (envs "m2") = .error msg →
      (summarize (runMeshEvaluation ["m1", "m2"] (some "t1") envs)).total = 2 ∧
      (summarize (runMeshEvaluation ["m1", "m2"] (some "t1") envs)).successful = 1 ∧
      (summarize (runMeshEvaluation ["m1", "m2"] (some "t1") envs)).failed = 1 ∧
      (summarize (runMeshEvaluation ["m1", "m2"] (some "t1") envs)).failedEntries =
        [⟨"m2", "t1", false, some msg⟩] ∧
      meshExitCode (runMeshEvaluation ["m1", "m2"] (some "t1") envs) = 1 ∧
      (∀ results : List MeshResult,
        meshExitCode results = 0 ↔ ∀ r ∈ results, r.success = true) := by
  intro envs msg rs1 h1 h2
  have hrs : runMeshEvaluation ["m1", "m2"] (some "t1") envs =
      [⟨"m1", "t1", true, none⟩, ⟨"m2", "t1", false, some msg⟩] := by
    simp [runMeshEvaluation, runModelEval, h1, h2, taskLabel]
  rw [hrs]
  refine ⟨rfl, rfl, rfl, rfl, rfl, ?_⟩
  intro results
  constructor
  · intro h0 r hr
    by_contra hs
    have hb : r.success = false := by
      cases hsr : r.success with
      | true => exact absurd hsr hs
      | false => rfl
    have ha : results.any (fun r => r.success = false) = true :=
      List.any_eq_true.mpr ⟨r, hr, by simp [hb]⟩
    simp [meshExitCode, ha] at h0
    exact hs (h0 r hr)
  · intro hall
    have ha : results.any (fun r => r.success = false) = false := by
      rw [List.any_eq_false]
      intro r hr
      simp [hall r hr]
    simp [meshExitCode, ha]
    exact hall

/-- C1 witness: a concrete mesh run in which m2's `runEvaluation`
throws an unknown-task error (its task directory no longer contains
`t1`) while m1's completes. -/
theorem mesh_summary_and_exit_code_witness :
    let envsW : String → EvalEnv := fun m =>
      if m = "m2" then
        ⟨true, [], ⟨2026, 1, 13, 8, 0, 0⟩, fun _ => .completed,
          fun n => ⟨n, true, none, "", none⟩⟩
      else
        ⟨true, ["t1"], ⟨2026, 1, 13, 8, 0, 0⟩, fun _ => .completed,
          fun n => ⟨n, true, none, "", none⟩⟩
    (summarize (runMeshEvaluation ["m1", "m2"] (some "t1") envsW)).total = 2 ∧
    (summarize (runMeshEvaluation ["m1", "m2"] (some "t1") envsW)).successful = 1 ∧
    (summarize (runMeshEvaluation ["m1", "m2"] (some "t1") envsW)).failed = 1 ∧
    (summarize (runMeshEvaluation ["m1", "m2"] (some "t1") envsW)).failedEntries =
      [⟨"m2", "t1", false, some "Unknown task: t1. Available tasks: "⟩] ∧
    meshExitCode (runMeshEvaluation ["m1", "m2"] (some "t1") envsW) = 1 := by
  intro envsW
  have h := mesh_summary_and_exit_code envsW
    "Unknown task: t1. Available tasks: " [⟨"t1", true, none, "", none⟩] rfl rfl
  exact ⟨h.1, h.2.1, h.2.2.1, h.2.2.2.1, h.2.2.2.2.1⟩

end AiFdmEval
